import Mathlib

/-!
Verification of `src/ApplicationHeatmap/application-tracker.py`
(NotionWorkflowScripts): a shallow embedding of the fetch → aggregate →
render pipeline, with theorems settling the specification's claims.

Conventions of the embedding:
* Python dicts holding the daily counts become association lists
  (`List (String × Nat)`) with Python's `dict.get`/assignment semantics.
* Fallible Python code (KeyError, raise_for_status) becomes `Except`.
* Calendar dates become `Nat` day numbers counted from 1970-01-01
  (day 0 = 1970-01-01, a Thursday), with an executable Gregorian
  conversion for `date.isoformat()` and `date.weekday()`.
-/

/-! ## Data model: Notion application records

A record is accessed only through
`app["properties"].get("Date Applied", {}).get("date")` and then
`date_field["start"]`.  `DateVal` models the value this chained access
yields, keeping the distinctions the code observes: Python falsiness
(`None` or `{}`) versus a truthy dict with or without a `"start"` key. -/

inductive DateVal where
  /-- `None`: the `"date"` key is absent or null (also the result when
  `"Date Applied"` itself is absent, since `{}.get("date")` is `None`). -/
  | null : DateVal
  /-- `{}`: the `"date"` value is an empty dict — falsy, so skipped. -/
  | emptyDict : DateVal
  /-- A non-empty dict carrying `"start": s`. -/
  | withStart (s : String) : DateVal
  /-- A non-empty (truthy) dict with no `"start"` key. -/
  | withoutStart : DateVal
  deriving DecidableEq, Repr

/-- Python truthiness of the `date_field` value (`if not date_field`). -/
def DateVal.truthy : DateVal → Bool
  | .null => false
  | .emptyDict => false
  | .withStart _ => true
  | .withoutStart => true

/-- The `"properties"` dict of a record, as far as the code reads it:
the value of `props.get("Date Applied", {}).get("date")`. -/
structure Props where
  dateApplied : DateVal
  deriving DecidableEq, Repr

/-- One Notion record.  `properties? = none` models a record lacking the
top-level `"properties"` key, on which `app["properties"]` raises. -/
structure NotionApp where
  properties? : Option Props
  deriving DecidableEq, Repr

/-- A record whose chained date access yields `dv`. -/
def mkApp (dv : DateVal) : NotionApp := ⟨some ⟨dv⟩⟩

/-- Errors surfaced by the Python code. -/
inductive PyError where
  | keyError (key : String) : PyError
  | httpError (status : Nat) : PyError
  | outOfFuel : PyError
  deriving DecidableEq, Repr

/-! ## Python dict operations on association lists -/

/-- The counts mapping: insertion-ordered association list, one entry
per key, mirroring a Python dict from date string to count. -/
abbrev Counts := List (String × Nat)

/-- `d.get(k, default)`. -/
def dictGet (d : Counts) (k : String) (default : Nat) : Nat :=
  match d.find? (fun p => p.1 == k) with
  | some p => p.2
  | none => default

/-- `d[k] = v`: update in place if the key exists, else append. -/
def dictSet (d : Counts) (k : String) (v : Nat) : Counts :=
  if d.any (fun p => p.1 == k) then
    d.map (fun p => if p.1 == k then (k, v) else p)
  else
    d ++ [(k, v)]

/-! ## `count_per_day` -/

/-- One iteration of the `for app in applications` loop of
`count_per_day`:

```python
props = app["properties"]
date_field = props.get("Date Applied", {}).get("date")
if not date_field:
    continue
date_str = date_field["start"]
counts[date_str] = counts.get(date_str, 0) + 1
``` -/
def count_per_day_step (counts : Counts) (app : NotionApp) :
    Except PyError Counts :=
  match app.properties? with
  | none => .error (.keyError "properties")
  | some props =>
    let date_field := props.dateApplied
    if !date_field.truthy then
      .ok counts
    else
      match date_field with
      | .withStart date_str =>
          .ok (dictSet counts date_str (dictGet counts date_str 0 + 1))
      | .withoutStart => .error (.keyError "start")
      | .null => .ok counts
      | .emptyDict => .ok counts

/-- `count_per_day(applications)`: fold the loop body over the record
list starting from the empty dict `counts = {}`. -/
def count_per_day (applications : List NotionApp) : Except PyError Counts :=
  applications.foldlM count_per_day_step []

/-- A record is skipped by the loop exactly when its `"properties"` key
exists and the chained date access is falsy (`if not date_field`). -/
def dateAbsent (app : NotionApp) : Bool :=
  match app.properties? with
  | some props => !props.dateApplied.truthy
  | none => false

example : count_per_day [mkApp (.withStart "2024-05-01"),
    mkApp (.withStart "2024-05-01"), mkApp .null] =
    .ok [("2024-05-01", 2)] := by rfl

example : count_per_day [⟨none⟩] = .error (.keyError "properties") := by rfl

/-! ## `get_applications`: paginated fetch

The remote endpoint is modelled as a pure function from the request
payload to an HTTP response; the `while has_more` loop becomes a
fuel-indexed recursion (the fuel only bounds the number of iterations —
every theorem below holds with enough fuel for the pages involved). -/

/-- The JSON payload of the POST request:
`{"page_size": 100}` plus `"start_cursor"` when the cursor is truthy. -/
structure PageRequest where
  page_size : Nat
  start_cursor : Option String
  deriving DecidableEq, Repr

/-- The decoded response body:
`{"results": [...], "has_more": bool?, "next_cursor": string?}`.
`has_more?`/`next_cursor?` are `Option` because the code reads them with
`data.get(...)`. -/
structure PageData where
  results : List NotionApp
  has_more? : Option Bool
  next_cursor? : Option String
  deriving DecidableEq, Repr

/-- An HTTP response: status code plus decoded JSON body. -/
structure HttpResponse where
  status : Nat
  body : PageData
  deriving DecidableEq, Repr

/-- The remote source: what `requests.post(NOTION_API_URL, ...)` returns
for each payload. -/
abbrev Source := PageRequest → HttpResponse

/-- `res.raise_for_status()`: `requests` raises for 400 ≤ status < 600. -/
def raise_for_status (status : Nat) : Except PyError Unit :=
  if 400 ≤ status ∧ status < 600 then .error (.httpError status) else .ok ()

/-- `if next_cursor:` — the cursor is put in the payload only when
truthy (present and non-empty). -/
def truthyCursor : Option String → Option String
  | some c => if c.isEmpty then none else some c
  | none => none

/-- The `while has_more:` loop of `get_applications`, carrying the
accumulated `all_results`, the `has_more` flag and the `next_cursor`:

```python
while has_more:
    payload = {"page_size": 100}
    if next_cursor:
        payload["start_cursor"] = next_cursor
    res = requests.post(NOTION_API_URL, headers=HEADERS, json=payload)
    res.raise_for_status()
    data = res.json()
    all_results.extend(data["results"])
    has_more = data.get("has_more", False)
    next_cursor = data.get("next_cursor")
``` -/
def get_applications_loop (source : Source) :
    Nat → List NotionApp → Bool → Option String →
    Except PyError (List NotionApp)
  | 0, all_results, has_more, _ =>
      if has_more then .error .outOfFuel else .ok all_results
  | fuel + 1, all_results, has_more, next_cursor =>
      if has_more then
        let payload : PageRequest :=
          { page_size := 100, start_cursor := truthyCursor next_cursor }
        let res := source payload
        match raise_for_status res.status with
        | .error e => .error e
        | .ok _ =>
            let data := res.body
            get_applications_loop source fuel (all_results ++ data.results)
              (data.has_more?.getD false) data.next_cursor?
      else .ok all_results

/-- `get_applications()`: start with `all_results = []`,
`has_more = True`, `next_cursor = None`. -/
def get_applications (source : Source) (fuel : Nat) :
    Except PyError (List NotionApp) :=
  get_applications_loop source fuel [] true none

/-- A concrete three-page source used to witness the pagination
theorems: page 1 (no cursor) and page 2 report `has_more = true` with
cursors `"c1"`, `"c2"`; page 3 reports `has_more = false`. -/
def sampleSource : Source := fun req =>
  match req.start_cursor with
  | none =>
      { status := 200,
        body := { results := [mkApp (.withStart "2024-05-01")],
                  has_more? := some true, next_cursor? := some "c1" } }
  | some c =>
      if c = "c1" then
        { status := 200,
          body := { results := [mkApp (.withStart "2024-05-02")],
                    has_more? := some true, next_cursor? := some "c2" } }
      else
        { status := 200,
          body := { results := [mkApp (.withStart "2024-05-03")],
                    has_more? := some false, next_cursor? := none } }

/-- A source whose second page (cursor `"c1"`) fails with HTTP 500. -/
def failingSource : Source := fun req =>
  match req.start_cursor with
  | none =>
      { status := 200,
        body := { results := [mkApp (.withStart "2024-05-01")],
                  has_more? := some true, next_cursor? := some "c1" } }
  | some _ =>
      { status := 500,
        body := { results := [], has_more? := some false,
                  next_cursor? := none } }

example : get_applications sampleSource 3 =
    .ok [mkApp (.withStart "2024-05-01"), mkApp (.withStart "2024-05-02"),
         mkApp (.withStart "2024-05-03")] := by rfl

example : get_applications failingSource 5 = .error (.httpError 500) := by rfl

/-! ## Calendar dates

Dates are `Nat` day numbers counted from 1970-01-01 (day 0, a
Thursday).  `civilFromDays` is the standard civil-from-days algorithm,
giving an executable `date.isoformat()`. -/

/-- Gregorian (year, month, day) of a day number. -/
def civilFromDays (z : Nat) : Nat × Nat × Nat :=
  let zs := z + 719468
  let era := zs / 146097
  let doe := zs % 146097
  let yoe := ((doe + doe / 36524) - (doe / 1460 + doe / 146096)) / 365
  let y := yoe + era * 400
  let doy := doe - ((365 * yoe + yoe / 4) - yoe / 100)
  let mp := (5 * doy + 2) / 153
  let dom := (doy - (153 * mp + 2) / 5) + 1
  let m := if mp < 10 then mp + 3 else mp - 9
  (if m ≤ 2 then y + 1 else y, m, dom)

/-- Zero-pad to two digits, as `isoformat` does for month and day. -/
def pad2 (n : Nat) : String :=
  if n < 10 then "0" ++ toString n else toString n

/-- `date.isoformat()` of a day number: `"YYYY-MM-DD"`. -/
def isoformat (z : Nat) : String :=
  let c := civilFromDays z
  toString c.1 ++ "-" ++ pad2 c.2.1 ++ "-" ++ pad2 c.2.2

/-- `date.weekday()` (Monday = 0): day 0 = 1970-01-01 was a Thursday. -/
def weekday (z : Nat) : Nat := (z + 3) % 7

example : isoformat 0 = "1970-01-01" ∧ weekday 0 = 3 := by decide
example : isoformat 20000 = "2024-10-04" ∧ weekday 20000 = 4 := by decide
example : isoformat 19930 = "2024-07-26" := by decide

/-! ## `draw_interactive_grid`

```python
today = datetime.date.today()
start_date = today - datetime.timedelta(weeks=10)
dates = [start_date + datetime.timedelta(days=i)
         for i in range((today - start_date).days + 1)]
total_weeks = (len(dates) + 6) // 7  # ceiling division
```

`today` is a day-number parameter; the Python 2D lists `z` and
`hover_text`, written by index assignment, become total functions
`Nat → Nat → _` updated by function override, with the 7 × `total_weeks`
extent tracked in the theorems. -/

/-- `start_date = today - datetime.timedelta(weeks=10)`. -/
def start_date (today : Nat) : Nat := today - 7 * 10

/-- The list `dates`. -/
def windowDates (today : Nat) : List Nat :=
  (List.range ((today - start_date today) + 1)).map
    (fun i => start_date today + i)

/-- `total_weeks = (len(dates) + 6) // 7`. -/
def total_weeks (today : Nat) : Nat := ((windowDates today).length + 6) / 7

/-- The mutable grid of the renderer: the numeric matrix `z`
(initialised to 0) and the `hover_text` matrix (initialised to `None`),
both indexed `[day_idx][week_idx]`. -/
structure GridState where
  z : Nat → Nat → Nat
  hover : Nat → Nat → Option String

/-- Index assignment `m[r][c] = v` on a matrix-as-function. -/
def setCell {α : Type} (m : Nat → Nat → α) (r c : Nat) (v : α) :
    Nat → Nat → α :=
  fun r0 c0 => if r0 = r ∧ c0 = c then v else m r0 c0

/-- The freshly initialised matrices. -/
def initGrid : GridState :=
  { z := fun _ _ => 0, hover := fun _ _ => none }

/-- The hover label of a past-or-today cell:
`f"{d}: {val} application{'s' if val != 1 else ''}"`. -/
def hoverLabel (dateStr : String) (val : Nat) : String :=
  dateStr ++ ": " ++ toString val ++ " application" ++
    (if val != 1 then "s" else "")

/-- One iteration of `for i, d in enumerate(dates)`:

```python
week_idx = i // 7
day_idx = d.weekday()  # Monday=0
if d > today:
    val = 0  # future day = 0
    hover_text[day_idx][week_idx] = f"{d}: 0 applications"
else:
    val = counts.get(d.isoformat(), 0)
    hover_text[day_idx][week_idx] = f"{d}: {val} application..."
z[day_idx][week_idx] = val
``` -/
def gridStep (counts : Counts) (today : Nat) (st : GridState)
    (p : Nat × Nat) : GridState :=
  let i := p.1
  let d := p.2
  let week_idx := i / 7
  let day_idx := weekday d
  if today < d then
    { z := setCell st.z day_idx week_idx 0,
      hover := setCell st.hover day_idx week_idx
        (some (isoformat d ++ ": 0 applications")) }
  else
    let val := dictGet counts (isoformat d) 0
    { z := setCell st.z day_idx week_idx val,
      hover := setCell st.hover day_idx week_idx
        (some (hoverLabel (isoformat d) val)) }

/-- The two filled matrices of `draw_interactive_grid` (the remainder
of the Python function only feeds them to the charting library and
writes the HTML file, which is outside the embedding). -/
def draw_interactive_grid (counts : Counts) (today : Nat) : GridState :=
  (windowDates today).enum.foldl (gridStep counts today) initGrid

/-- `discrete_colorscale(val)`:

```python
if val == 0: return 0
elif val < 10: return 1
elif val < 25: return 2
else: return 3
``` -/
def discrete_colorscale (val : Nat) : Nat :=
  if val = 0 then 0
  else if val < 10 then 1
  else if val < 25 then 2
  else 3

/-- `z_colors = [[discrete_colorscale(z[y][x]) for x ...] for y ...]`. -/
def z_colors (counts : Counts) (today : Nat) : Nat → Nat → Nat :=
  fun y x => discrete_colorscale ((draw_interactive_grid counts today).z y x)

/-- The fixed colorscale handed to the charting library: four stops at
normalized positions 0, 0.25, 0.5, 1. -/
def colorscale : List (ℚ × String) :=
  [(0, "#ebedf0"), (1/4, "#e74c3c"), (1/2, "#f1c40f"), (1, "#2ecc71")]

/-- Modelled from the spec: the continuous color mapping the spec
describes (clamp the count to a ceiling of 25, then place it linearly
on the normalized 0–1 color axis for interpolation between the fixed
stops).  This definition follows the spec's words, for comparison with
the source's `discrete_colorscale`; it is NOT in the source. -/
def spec_continuous_position (val : Nat) : ℚ := (min val 25 : Nat) / 25

/-- The grid cell a window index `i` is written to. -/
def cellOf (today : Nat) (i : Nat) : Nat × Nat :=
  (weekday (start_date today + i), i / 7)

example : (windowDates 20000).length = 71 := by decide
example : total_weeks 20000 = 11 := by decide

/-- The numeric value the loop body stores for date `d`
(`val` in the Python). -/
def cellVal (counts : Counts) (today d : Nat) : Nat :=
  if today < d then 0 else dictGet counts (isoformat d) 0

/-- The hover string the loop body stores for date `d`. -/
def cellHover (counts : Counts) (today d : Nat) : String :=
  if today < d then isoformat d ++ ": 0 applications"
  else hoverLabel (isoformat d) (dictGet counts (isoformat d) 0)

/-- The grid fold restated over `List.range n` (proved below to agree
with `draw_interactive_grid` when `70 ≤ today`, where `n = 71`). -/
def gridFold (counts : Counts) (today n : Nat) : GridState :=
  ((List.range n).map (fun i => (i, start_date today + i))).foldl
    (gridStep counts today) initGrid

/-- The populated cells of a `rows × cols` grid: those whose hover text
has been set. -/
def populatedCells (st : GridState) (rows cols : Nat) :
    Finset (Nat × Nat) :=
  (Finset.range rows ×ˢ Finset.range cols).filter
    (fun rc => (st.hover rc.1 rc.2).isSome = true)

/-! # Theorems -/

/-! ## Grid fold lemmas -/

theorem gridStep_eq (counts : Counts) (today : Nat) (st : GridState)
    (i d : Nat) :
    gridStep counts today st (i, d) =
      { z := setCell st.z (weekday d) (i / 7) (cellVal counts today d),
        hover := setCell st.hover (weekday d) (i / 7)
          (some (cellHover counts today d)) } := by
  by_cases h : today < d <;>
    simp [gridStep, cellVal, cellHover, h]

theorem setCell_same {α : Type} (m : Nat → Nat → α) (r c : Nat) (v : α) :
    setCell m r c v r c = v := by
  simp [setCell]

theorem setCell_other {α : Type} (m : Nat → Nat → α) (r c : Nat) (v : α)
    (r0 c0 : Nat) (h : ¬(r0 = r ∧ c0 = c)) :
    setCell m r c v r0 c0 = m r0 c0 := by
  simp [setCell, h]

theorem cellOf_inj (today i j : Nat) (h : cellOf today i = cellOf today j) :
    i = j := by
  simp only [cellOf, weekday, Prod.mk.injEq] at h
  omega

theorem gridFold_succ (counts : Counts) (today n : Nat) :
    gridFold counts today (n + 1) =
      gridStep counts today (gridFold counts today n)
        (n, start_date today + n) := by
  simp [gridFold, List.range_succ]

theorem windowDates_eq (today : Nat) (h : 70 ≤ today) :
    windowDates today =
      (List.range 71).map (fun i => start_date today + i) := by
  have : (today - start_date today) + 1 = 71 := by
    simp only [start_date]; omega
  simp [windowDates, this]

theorem zip_map_self {α β : Type} (f : α → β) (l : List α) :
    l.zip (l.map f) = l.map (fun x => (x, f x)) := by
  induction l with
  | nil => rfl
  | cons a l ih => simp [ih]

theorem draw_eq_gridFold (counts : Counts) (today : Nat) (h : 70 ≤ today) :
    draw_interactive_grid counts today = gridFold counts today 71 := by
  have hw := windowDates_eq today h
  have hlen : (windowDates today).length = 71 := by
    simp [hw]
  simp only [draw_interactive_grid, gridFold]
  rw [List.enum_eq_zip_range, hlen, hw, zip_map_self]

theorem gridFold_written (counts : Counts) (today : Nat) :
    ∀ n j, j < n →
      (gridFold counts today n).hover (cellOf today j).1
          (cellOf today j).2 =
        some (cellHover counts today (start_date today + j)) ∧
      (gridFold counts today n).z (cellOf today j).1 (cellOf today j).2 =
        cellVal counts today (start_date today + j) := by
  intro n
  induction n with
  | zero => intro j hj; omega
  | succ n ih =>
    intro j hj
    rw [gridFold_succ, gridStep_eq]
    rcases Nat.lt_succ_iff_lt_or_eq.mp hj with hlt | heq
    · have hne : ¬((cellOf today j).1 = weekday (start_date today + n) ∧
          (cellOf today j).2 = n / 7) := by
        intro hcon
        have hcell : cellOf today j = cellOf today n :=
          Prod.ext hcon.1 hcon.2
        have := cellOf_inj today j n hcell
        omega
      dsimp only
      rw [setCell_other _ _ _ _ _ _ hne, setCell_other _ _ _ _ _ _ hne]
      exact ih j hlt
    · subst heq
      dsimp only
      constructor
      · exact setCell_same _ _ _ _
      · exact setCell_same _ _ _ _

theorem gridFold_untouched (counts : Counts) (today : Nat) :
    ∀ n r c, (∀ j, j < n → cellOf today j ≠ (r, c)) →
      (gridFold counts today n).hover r c = none ∧
      (gridFold counts today n).z r c = 0 := by
  intro n
  induction n with
  | zero => intro r c _; exact ⟨rfl, rfl⟩
  | succ n ih =>
    intro r c hall
    rw [gridFold_succ, gridStep_eq]
    have hne : ¬(r = weekday (start_date today + n) ∧ c = n / 7) := by
      intro hcon
      exact hall n (by omega) (Prod.ext hcon.1 hcon.2).symm
    dsimp only
    rw [setCell_other _ _ _ _ _ _ hne, setCell_other _ _ _ _ _ _ hne]
    exact ih r c (fun j hj => hall j (by omega))

theorem draw_written (counts : Counts) (today j : Nat) (h70 : 70 ≤ today)
    (hj : j < 71) :
    (draw_interactive_grid counts today).hover (cellOf today j).1
        (cellOf today j).2 =
      some (cellHover counts today (start_date today + j)) ∧
    (draw_interactive_grid counts today).z (cellOf today j).1
        (cellOf today j).2 =
      cellVal counts today (start_date today + j) := by
  rw [draw_eq_gridFold counts today h70]
  exact gridFold_written counts today 71 j hj

theorem draw_untouched (counts : Counts) (today r c : Nat)
    (h70 : 70 ≤ today) (hall : ∀ j, j < 71 → cellOf today j ≠ (r, c)) :
    (draw_interactive_grid counts today).hover r c = none ∧
    (draw_interactive_grid counts today).z r c = 0 := by
  rw [draw_eq_gridFold counts today h70]
  exact gridFold_untouched counts today 71 r c hall

theorem cellOf_mem_rect (today j : Nat) (hj : j < 71) :
    (cellOf today j).1 < 7 ∧ (cellOf today j).2 < 11 := by
  constructor
  · exact Nat.mod_lt _ (by omega)
  · show j / 7 < 11
    omega

theorem populated_eq_image (counts : Counts) (today : Nat)
    (h70 : 70 ≤ today) :
    populatedCells (draw_interactive_grid counts today) 7 11 =
      (Finset.range 71).image (cellOf today) := by
  ext rc
  rcases rc with ⟨r, c⟩
  simp only [populatedCells, Finset.mem_filter, Finset.mem_product,
    Finset.mem_range, Finset.mem_image]
  constructor
  · rintro ⟨⟨hr, hc⟩, hsome⟩
    by_contra hno
    push_neg at hno
    have hall : ∀ j, j < 71 → cellOf today j ≠ (r, c) := fun j hj =>
      hno j hj
    rw [(draw_untouched counts today r c h70 hall).1] at hsome
    simp at hsome
  · rintro ⟨j, hj, hcell⟩
    have hrect := cellOf_mem_rect today j hj
    have hwr := (draw_written counts today j h70 hj).1
    rw [hcell] at hrect hwr
    exact ⟨⟨hrect.1, hrect.2⟩, by rw [hwr]; rfl⟩

theorem populated_card (counts : Counts) (today : Nat) (h70 : 70 ≤ today) :
    (populatedCells (draw_interactive_grid counts today) 7 11).card = 71 := by
  rw [populated_eq_image counts today h70,
    Finset.card_image_of_injOn (fun i _ j _ h => cellOf_inj today i j h)]
  exact Finset.card_range 71

/-! ## Claim C1 -/

/-- Claim C1, counterexample: the claim states the renderer's window is
a trailing window of exactly 60 calendar days with a 7 × 9 grid.  In
the code, `start_date = today - timedelta(weeks=10)`, so the window has
71 days and the grid has `ceil(71/7) = 11` columns: at the concrete
day number `today = 20000` (2024-10-04) the window length is 71, not
60, and `total_weeks` is 11, not 9. -/
theorem window_not_60_days :
    (windowDates 20000).length = 71 ∧ (windowDates 20000).length ≠ 60 ∧
    total_weeks 20000 = 11 ∧ total_weeks 20000 ≠ 9 := by
  refine ⟨by decide, by decide, by decide, by decide⟩

/-- Claim C1, amended: the renderer's window is a trailing window of
exactly 71 calendar days (10 weeks back from today, both ends
inclusive): the grid has 7 rows and `ceil(71/7) = 11` columns, exactly
71 cells are populated with a count and a hover label, and the
remainder cells of the grid are left at their default/empty state
(hover `None`, count 0). -/
theorem window_71_days_grid (counts : Counts) (today : Nat)
    (h70 : 70 ≤ today) :
    (windowDates today).length = 71 ∧
    total_weeks today = 11 ∧
    (populatedCells (draw_interactive_grid counts today) 7 11).card = 71 ∧
    (∀ r c, r < 7 → c < 11 →
      (draw_interactive_grid counts today).hover r c = none →
      (draw_interactive_grid counts today).z r c = 0) := by
  have hlen : (windowDates today).length = 71 := by
    rw [windowDates_eq today h70]; simp
  refine ⟨hlen, by rw [total_weeks, hlen], populated_card counts today h70,
    ?_⟩
  intro r c _ _ hnone
  by_cases hex : ∃ j, j < 71 ∧ cellOf today j = (r, c)
  · obtain ⟨j, hj, hcell⟩ := hex
    have hwr := (draw_written counts today j h70 hj).1
    rw [hcell, hnone] at hwr
    exact absurd hwr (by simp)
  · push_neg at hex
    exact (draw_untouched counts today r c h70 hex).2

/-- Witness for `window_71_days_grid` at `today = 20000`
(2024-10-04) with no recorded applications. -/
theorem window_71_days_grid_witness :
    (windowDates 20000).length = 71 ∧
    total_weeks 20000 = 11 ∧
    (populatedCells (draw_interactive_grid [] 20000) 7 11).card = 71 ∧
    (∀ r c, r < 7 → c < 11 →
      (draw_interactive_grid [] 20000).hover r c = none →
      (draw_interactive_grid [] 20000).z r c = 0) :=
  window_71_days_grid [] 20000 (by decide)

/-! ## Claim C8 -/

theorem hoverLabel_pluralized (s : String) (v : Nat) :
    hoverLabel s v = s ++ ": " ++ toString v ++
      (if v = 1 then " application" else " applications") := by
  by_cases h : v = 1
  · subst h
    simp only [hoverLabel, if_pos rfl]
    norm_num
  · have hb : (v != 1) = true := by simpa using h
    simp only [hoverLabel, hb, if_pos rfl, if_neg h]
    rw [String.append_assoc (s ++ ": " ++ toString v)]
    congr 1

/-- Claim C8: for every populated cell, the hover text is the literal
ISO date followed by the count with correct English pluralization —
`"<date>: 1 application"` when the count is exactly 1, and
`"<date>: N applications"` for every other count N (including 0).
(Stated for each of the 71 window indices `j`, whose cells are exactly
the populated cells.) -/
theorem hover_text_pluralization (counts : Counts) (today j : Nat)
    (h70 : 70 ≤ today) (hj : j < 71) :
    (draw_interactive_grid counts today).hover (cellOf today j).1
        (cellOf today j).2 =
      some (isoformat (start_date today + j) ++ ": " ++
        toString (dictGet counts (isoformat (start_date today + j)) 0) ++
        (if dictGet counts (isoformat (start_date today + j)) 0 = 1
         then " application" else " applications")) := by
  have hwr := (draw_written counts today j h70 hj).1
  have hd : ¬ today < start_date today + j := by
    simp only [start_date]; omega
  rw [hwr, cellHover, if_neg hd, hoverLabel_pluralized]

/-- Witness for `hover_text_pluralization`: `today = 20000`
(2024-10-04), one application on 2024-07-26 (window index 0, a count of
exactly 1, singular form). -/
theorem hover_text_pluralization_witness :
    (draw_interactive_grid [("2024-07-26", 1)] 20000).hover
        (cellOf 20000 0).1 (cellOf 20000 0).2 =
      some (isoformat (start_date 20000 + 0) ++ ": " ++
        toString (dictGet [("2024-07-26", 1)]
          (isoformat (start_date 20000 + 0)) 0) ++
        (if dictGet [("2024-07-26", 1)]
            (isoformat (start_date 20000 + 0)) 0 = 1
         then " application" else " applications")) :=
  hover_text_pluralization [("2024-07-26", 1)] 20000 0 (by decide)
    (by decide)

/-! ## Claim C4 -/

/-- Claim C4: counts are clamped to a ceiling of 25 for color mapping
only — the color value of a count depends only on `min count 25` (so a
date with 40 applications gets the same color value as a date with
exactly 25), while the hover tooltip still shows the true unclamped
count `"...: 40 applications"`. -/
theorem clamp_cap_invariant (counts : Counts) (today j : Nat)
    (h70 : 70 ≤ today) (hj : j < 71)
    (hcount : dictGet counts (isoformat (start_date today + j)) 0 = 40) :
    (∀ val, discrete_colorscale (min val 25) = discrete_colorscale val) ∧
    (draw_interactive_grid counts today).hover (cellOf today j).1
        (cellOf today j).2 =
      some (isoformat (start_date today + j) ++ ": 40 applications") ∧
    z_colors counts today (cellOf today j).1 (cellOf today j).2 =
      discrete_colorscale 25 := by
  have hd : ¬ today < start_date today + j := by
    simp only [start_date]; omega
  refine ⟨?_, ?_, ?_⟩
  · intro val
    rcases le_or_lt val 25 with h | h
    · rw [Nat.min_eq_left h]
    · rw [Nat.min_eq_right (le_of_lt h)]
      have h0 : ¬ val = 0 := by omega
      have h10 : ¬ val < 10 := by omega
      have h25 : ¬ val < 25 := by omega
      simp [discrete_colorscale, h0, h10, h25]
  · have hwr := (draw_written counts today j h70 hj).1
    rw [hwr, cellHover, if_neg hd, hcount, hoverLabel_pluralized,
      if_neg (by omega)]
    rw [String.append_assoc, String.append_assoc]
    congr 1
  · have hz := (draw_written counts today j h70 hj).2
    simp only [z_colors]
    rw [hz, cellVal, if_neg hd, hcount]
    decide

/-- Witness for `clamp_cap_invariant`: `today = 20000`, 40 applications
recorded on 2024-07-26 (window index 0). -/
theorem clamp_cap_invariant_witness :
    (∀ val, discrete_colorscale (min val 25) = discrete_colorscale val) ∧
    (draw_interactive_grid [("2024-07-26", 40)] 20000).hover
        (cellOf 20000 0).1 (cellOf 20000 0).2 =
      some (isoformat (start_date 20000 + 0) ++ ": 40 applications") ∧
    z_colors [("2024-07-26", 40)] 20000 (cellOf 20000 0).1
        (cellOf 20000 0).2 = discrete_colorscale 25 :=
  clamp_cap_invariant [("2024-07-26", 40)] 20000 0 (by decide) (by decide)
    (by rfl)

/-! ## Claim C3 -/

/-- Claim C3, counterexample: the renderer does not map counts through
the claimed continuous 4-stop interpolation; it maps them through the
discrete bucket function `discrete_colorscale`.  At `today = 20000`
with 10 applications on 2024-07-26 (cell `(4, 0)`) and 24 on
2024-07-27 (cell `(5, 0)`), both cells receive the identical color
value 2, whereas the spec's continuous clamp-and-interpolate mapping
assigns them distinct positions `10/25 ≠ 24/25`. -/
theorem colorscale_not_continuous :
    z_colors [("2024-07-26", 10), ("2024-07-27", 24)] 20000 4 0 = 2 ∧
    z_colors [("2024-07-26", 10), ("2024-07-27", 24)] 20000 5 0 = 2 ∧
    spec_continuous_position 10 ≠ spec_continuous_position 24 :=
  ⟨by rfl, by rfl, by norm_num [spec_continuous_position]⟩

/-- Claim C3, amended: for every cell, the renderer maps the cell's
count through the discrete 4-bucket function (tier 0 for count 0, tier
1 for 1–9, tier 2 for 10–24, tier 3 for ≥ 25) and uses that tier as
the heatmap z-value against the fixed 4-stop colorscale; counts in the
same bucket receive identical color values. -/
theorem colorscale_discrete_buckets (counts : Counts) (today j : Nat)
    (h70 : 70 ≤ today) (hj : j < 71) :
    z_colors counts today (cellOf today j).1 (cellOf today j).2 =
      discrete_colorscale
        (dictGet counts (isoformat (start_date today + j)) 0) ∧
    (∀ val, (discrete_colorscale val = 0 ↔ val = 0) ∧
      (discrete_colorscale val = 1 ↔ 1 ≤ val ∧ val < 10) ∧
      (discrete_colorscale val = 2 ↔ 10 ≤ val ∧ val < 25) ∧
      (discrete_colorscale val = 3 ↔ 25 ≤ val)) := by
  have hd : ¬ today < start_date today + j := by
    simp only [start_date]; omega
  constructor
  · have hz := (draw_written counts today j h70 hj).2
    simp only [z_colors]
    rw [hz, cellVal, if_neg hd]
  · intro val
    by_cases h0 : val = 0
    · subst h0; simp [discrete_colorscale]
    · by_cases h10 : val < 10
      · simp only [discrete_colorscale, if_neg h0, if_pos h10]
        refine ⟨by omega, by simp; omega, by omega, by omega⟩
      · by_cases h25 : val < 25
        · simp only [discrete_colorscale, if_neg h0, if_neg h10,
            if_pos h25]
          refine ⟨by omega, by omega, by simp; omega, by omega⟩
        · simp only [discrete_colorscale, if_neg h0, if_neg h10,
            if_neg h25]
          refine ⟨by omega, by omega, by omega, by simp; omega⟩

/-- Witness for `colorscale_discrete_buckets`: `today = 20000`, 10
applications on 2024-07-26 (window index 0). -/
theorem colorscale_discrete_buckets_witness :
    z_colors [("2024-07-26", 10)] 20000 (cellOf 20000 0).1
        (cellOf 20000 0).2 =
      discrete_colorscale
        (dictGet [("2024-07-26", 10)] (isoformat (start_date 20000 + 0))
          0) ∧
    (∀ val, (discrete_colorscale val = 0 ↔ val = 0) ∧
      (discrete_colorscale val = 1 ↔ 1 ≤ val ∧ val < 10) ∧
      (discrete_colorscale val = 2 ↔ 10 ≤ val ∧ val < 25) ∧
      (discrete_colorscale val = 3 ↔ 25 ≤ val)) :=
  colorscale_discrete_buckets [("2024-07-26", 10)] 20000 0 (by decide)
    (by decide)

/-! ## Claim C2 -/

/-- Claim C2, counterexample: two records whose date-time strings share
the calendar date 2024-05-01 but differ in time of day are NOT merged
into one count — `count_per_day` keys the counts by the raw string
`date_field["start"]`, producing two separate entries of count 1 and
leaving nothing under the calendar-date key `"2024-05-01"`. -/
theorem no_date_normalization :
    count_per_day [mkApp (.withStart "2024-05-01T10:00:00.000+02:00"),
        mkApp (.withStart "2024-05-01T15:30:00.000+02:00")] =
      .ok [("2024-05-01T10:00:00.000+02:00", 1),
           ("2024-05-01T15:30:00.000+02:00", 1)] ∧
    dictGet [("2024-05-01T10:00:00.000+02:00", 1),
        ("2024-05-01T15:30:00.000+02:00", 1)] "2024-05-01" 0 = 0 :=
  ⟨by rfl, by rfl⟩

/-- Claim C2, amended: the aggregator performs no date normalization;
it keys counts by the raw date string of each record, so two records
are merged into a single count exactly when their date strings are
literally equal. -/
theorem counts_keyed_by_raw_string (s1 s2 : String) :
    count_per_day [mkApp (.withStart s1), mkApp (.withStart s2)] =
      .ok (if s1 = s2 then [(s1, 2)] else [(s1, 1), (s2, 1)]) := by
  have main : count_per_day [mkApp (.withStart s1), mkApp (.withStart s2)] =
      .ok (dictSet [(s1, 1)] s2 (dictGet [(s1, 1)] s2 0 + 1)) := rfl
  rw [main]
  by_cases h : s1 = s2
  · subst h
    simp [dictGet, dictSet]
  · have hb : (s1 == s2) = false := by simpa using h
    simp [dictGet, dictSet, hb, h]

/-! ## Claim C7 -/

theorem foldlM_filter_dateAbsent :
    ∀ (apps : List NotionApp) (init : Counts),
      (apps.filter (fun a => ! dateAbsent a)).foldlM count_per_day_step
          init =
        apps.foldlM count_per_day_step init := by
  intro apps
  induction apps with
  | nil => intro init; rfl
  | cons a rest ih =>
    intro init
    by_cases h : dateAbsent a = true
    · have hstep : count_per_day_step init a = .ok init := by
        rcases a with ⟨_ | ⟨dv⟩⟩
        · simp [dateAbsent] at h
        · cases dv
          simp_all [count_per_day_step, dateAbsent, DateVal.truthy]
      have hfilter : (a :: rest).filter (fun x => ! dateAbsent x) =
          rest.filter (fun x => ! dateAbsent x) := by
        simp [List.filter_cons, h]
      rw [hfilter, ih, List.foldlM_cons, hstep]
      rfl
    · have hkeep : dateAbsent a = false := by
        simpa using h
      have hfilter : (a :: rest).filter (fun x => ! dateAbsent x) =
          a :: rest.filter (fun x => ! dateAbsent x) := by
        simp [List.filter_cons, hkeep]
      rw [hfilter, List.foldlM_cons, List.foldlM_cons]
      cases hs : count_per_day_step init a with
      | error e => rfl
      | ok c => exact ih c

/-- Claim C7: a record whose date field is absent (falsy) is silently
skipped by the aggregator — it contributes zero to every date's count
and raises no error: the aggregation over any record collection equals
the aggregation over only the records whose date field is present. -/
theorem skip_invariant (apps : List NotionApp) :
    count_per_day apps =
      count_per_day (apps.filter (fun a => ! dateAbsent a)) :=
  (foldlM_filter_dateAbsent apps []).symm

/-! ## Claim C9 -/

/-- Claim C9: aggregation is deterministic — `count_per_day` is a pure
function of the record collection alone (the embedding threads no
state between runs), so any two runs over identical record collections
produce identical counts mappings. -/
theorem aggregation_deterministic (apps1 apps2 : List NotionApp)
    (h : apps1 = apps2) (m1 m2 : Counts)
    (h1 : count_per_day apps1 = .ok m1)
    (h2 : count_per_day apps2 = .ok m2) : m1 = m2 := by
  subst h
  rw [h1] at h2
  exact Except.ok.inj h2

/-- Witness for `aggregation_deterministic`: two runs over the same
one-record collection. -/
theorem aggregation_deterministic_witness :
    ([("2024-05-01", 1)] : Counts) = [("2024-05-01", 1)] :=
  aggregation_deterministic [mkApp (.withStart "2024-05-01")]
    [mkApp (.withStart "2024-05-01")] rfl _ _ (by rfl) (by rfl)

/-! ## Claim C10 -/

/-- Claim C10: the aggregator's tolerance is limited to the date field
itself — a record lacking the top-level `"properties"` key raises
`KeyError("properties")`, and a record whose date field is present
(truthy) but lacks a `"start"` key raises `KeyError("start")`; neither
is skipped. -/
theorem key_errors_outside_date_field :
    count_per_day [⟨none⟩] = .error (.keyError "properties") ∧
    count_per_day [mkApp .withoutStart] = .error (.keyError "start") :=
  ⟨by rfl, by rfl⟩

/-! ## Claim C5 -/

theorem loop_stops (source : Source) (fuel : Nat) (acc : List NotionApp)
    (cursor : Option String) :
    get_applications_loop source fuel acc false cursor = .ok acc := by
  cases fuel <;> rfl

theorem loop_step (source : Source) (fuel : Nat) (acc : List NotionApp)
    (cursor : Option String)
    (hok : ¬(400 ≤ (source ⟨100, truthyCursor cursor⟩).status ∧
        (source ⟨100, truthyCursor cursor⟩).status < 600)) :
    get_applications_loop source (fuel + 1) acc true cursor =
      get_applications_loop source fuel
        (acc ++ (source ⟨100, truthyCursor cursor⟩).body.results)
        ((source ⟨100, truthyCursor cursor⟩).body.has_more?.getD false)
        (source ⟨100, truthyCursor cursor⟩).body.next_cursor? := by
  have hrs : raise_for_status (source ⟨100, truthyCursor cursor⟩).status =
      .ok () := by
    simp [raise_for_status, hok]
  simp [get_applications_loop, hrs]

/-- Claim C5: the fetcher requests every page with `page_size = 100`,
threads the returned cursor into the next request, and stops exactly
when the source reports no further pages: for a source reporting
`has_more = true` for two pages and then `has_more = false`, it
returns the concatenation of the three pages' results in arrival
order (with any spare fuel beyond the three iterations used). -/
theorem pagination_three_pages (source : Source) (p1 p2 p3 : PageData)
    (c1 c2 : String)
    (h1 : source { page_size := 100, start_cursor := none } =
      { status := 200, body := p1 })
    (hm1 : p1.has_more? = some true) (hc1 : p1.next_cursor? = some c1)
    (hne1 : c1 ≠ "")
    (h2 : source { page_size := 100, start_cursor := some c1 } =
      { status := 200, body := p2 })
    (hm2 : p2.has_more? = some true) (hc2 : p2.next_cursor? = some c2)
    (hne2 : c2 ≠ "")
    (h3 : source { page_size := 100, start_cursor := some c2 } =
      { status := 200, body := p3 })
    (hm3 : p3.has_more? = some false)
    (fuel : Nat) :
    get_applications source (fuel + 3) =
      .ok (p1.results ++ p2.results ++ p3.results) := by
  have ht1 : truthyCursor none = none := rfl
  have ht2 : truthyCursor (some c1) = some c1 := by
    simp [truthyCursor, String.isEmpty_iff, hne1]
  have ht3 : truthyCursor (some c2) = some c2 := by
    simp [truthyCursor, String.isEmpty_iff, hne2]
  have hok1 : ¬(400 ≤ (source ⟨100, truthyCursor none⟩).status ∧
      (source ⟨100, truthyCursor none⟩).status < 600) := by
    rw [ht1, h1]; simp
  have hok2 : ¬(400 ≤ (source ⟨100, truthyCursor (some c1)⟩).status ∧
      (source ⟨100, truthyCursor (some c1)⟩).status < 600) := by
    rw [ht2, h2]; simp
  have hok3 : ¬(400 ≤ (source ⟨100, truthyCursor (some c2)⟩).status ∧
      (source ⟨100, truthyCursor (some c2)⟩).status < 600) := by
    rw [ht3, h3]; simp
  rw [get_applications, show fuel + 3 = (fuel + 2) + 1 from rfl,
    loop_step source (fuel + 2) [] none hok1, ht1, h1]
  simp only [List.nil_append, hm1, hc1, Option.getD_some]
  rw [show fuel + 2 = (fuel + 1) + 1 from rfl,
    loop_step source (fuel + 1) p1.results (some c1) hok2, ht2, h2]
  simp only [hm2, hc2, Option.getD_some]
  rw [loop_step source fuel (p1.results ++ p2.results) (some c2) hok3,
    ht3, h3]
  simp only [hm3, Option.getD_some]
  rw [loop_stops]

/-- Witness for `pagination_three_pages`: the concrete three-page
`sampleSource` with cursors `"c1"` and `"c2"`. -/
theorem pagination_three_pages_witness :
    get_applications sampleSource (0 + 3) =
      .ok ([mkApp (.withStart "2024-05-01")] ++
        [mkApp (.withStart "2024-05-02")] ++
        [mkApp (.withStart "2024-05-03")]) :=
  pagination_three_pages sampleSource _ _ _ "c1" "c2" rfl rfl rfl
    (by decide) rfl rfl rfl (by decide) rfl rfl 0

/-! ## Claim C6 -/

/-- Claim C6: if a page fetch returns a non-success HTTP status
(400–599, on which `raise_for_status` raises), the fetcher propagates
the error from whatever pagination state it had reached: the result is
the error, and in particular no partial collection of already-fetched
results (`acc`) is ever returned. -/
theorem http_error_aborts (source : Source) (fuel : Nat)
    (acc : List NotionApp) (cursor : Option String)
    (h400 : 400 ≤ (source ⟨100, truthyCursor cursor⟩).status)
    (h600 : (source ⟨100, truthyCursor cursor⟩).status < 600) :
    get_applications_loop source (fuel + 1) acc true cursor =
      .error (.httpError (source ⟨100, truthyCursor cursor⟩).status) ∧
    ∀ l, get_applications_loop source (fuel + 1) acc true cursor ≠
      .ok l := by
  have hrs : raise_for_status (source ⟨100, truthyCursor cursor⟩).status =
      .error (.httpError (source ⟨100, truthyCursor cursor⟩).status) := by
    simp [raise_for_status, h400, h600]
  have heq : get_applications_loop source (fuel + 1) acc true cursor =
      .error (.httpError (source ⟨100, truthyCursor cursor⟩).status) := by
    simp [get_applications_loop, hrs]
  exact ⟨heq, fun l hl => by rw [heq] at hl; cases hl⟩

/-- Witness for `http_error_aborts`: `failingSource`, whose second page
(cursor `"c1"`) answers HTTP 500, after one page of results has
already been accumulated. -/
theorem http_error_aborts_witness :
    (get_applications_loop failingSource 1
        [mkApp (.withStart "2024-05-01")] true (some "c1") =
      .error (.httpError
        (failingSource ⟨100, truthyCursor (some "c1")⟩).status)) ∧
    ∀ l, get_applications_loop failingSource 1
        [mkApp (.withStart "2024-05-01")] true (some "c1") ≠ .ok l :=
  http_error_aborts failingSource 0 [mkApp (.withStart "2024-05-01")]
    (some "c1") (by decide) (by decide)
